import Mathlib

/-!
Shallow embedding of the validator-extras shim of the repository
(the runtime half of `src/src/associations/belongs-to.d.ts`), which
augments the external `validator` npm module with ORM-specific
predicates, and theorems settling the frozen claims about it.

JavaScript runtime values are modelled by `JSValue`; JavaScript numbers
are rationals together with a separate `nan` point, so that strict
equality (`===`) can be modelled faithfully, including its failure of
reflexivity at `NaN`.
-/

namespace SequelizeValidator

/-- A JavaScript number: either `NaN` or an ordinary numeric value
(modelled as a rational, abstracting the IEEE double). -/
inductive JSNum where
  | nan : JSNum
  | val : ℚ → JSNum
deriving DecidableEq

/-- A JavaScript primitive runtime value. -/
inductive JSValue where
  | undefined : JSValue
  | null : JSValue
  | bool : Bool → JSValue
  | num : JSNum → JSValue
  | str : String → JSValue
deriving DecidableEq

/-- JavaScript strict equality `===` on primitive values: no coercion
between types, and `NaN === NaN` is false. -/
def strictEq : JSValue → JSValue → Bool
  | JSValue.undefined, JSValue.undefined => true
  | JSValue.null, JSValue.null => true
  | JSValue.bool a, JSValue.bool b => a == b
  | JSValue.num JSNum.nan, JSValue.num _ => false
  | JSValue.num _, JSValue.num JSNum.nan => false
  | JSValue.num (JSNum.val a), JSValue.num (JSNum.val b) => a == b
  | JSValue.str a, JSValue.str b => a == b
  | _, _ => false

/-- Strict equality only relates equal values (the converse fails at `NaN`). -/
theorem strictEq_sound (x y : JSValue) (h : strictEq x y = true) : x = y := by
  cases x <;> cases y <;> simp [strictEq] at h <;> try rfl
  case bool.bool => rw [h]
  case num.num a b =>
    cases a <;> cases b <;> simp [strictEq] at h
    rw [h]
  case str.str => rw [h]

/-- The slice of a model instance read by `validator.isImmutable`:
the `isNewRecord` flag and the two attribute stores.  Property access on
a JavaScript object yields `undefined` for absent keys, so the stores
are total functions into `JSValue`. -/
structure ModelInstance where
  isNewRecord : Bool
  dataValues : String → JSValue
  _previousDataValues : String → JSValue

/-- Source function `validator.isImmutable`:
`modelInstance.isNewRecord || modelInstance.dataValues[field] === modelInstance._previousDataValues[field]`.
The first two arguments are unused by the source body and kept for the
source signature. -/
def isImmutable (value : JSValue) (validatorArgs : List JSValue)
    (field : String) (modelInstance : ModelInstance) : Bool :=
  modelInstance.isNewRecord
    || strictEq (modelInstance.dataValues field) (modelInstance._previousDataValues field)

/-- C1: for every existing (non-new) record, `isImmutable` succeeds iff the
current field value strictly equals (`===`) the previously recorded one;
in particular it returns false whenever the two values differ. -/
theorem isImmutable_existing_iff_eq (value : JSValue) (args : List JSValue)
    (field : String) (inst : ModelInstance) (hnew : inst.isNewRecord = false) :
    isImmutable value args field inst
        = strictEq (inst.dataValues field) (inst._previousDataValues field)
      ∧ (inst.dataValues field ≠ inst._previousDataValues field →
          isImmutable value args field inst = false) := by
  constructor
  · simp [isImmutable, hnew]
  · intro hne
    cases hs : strictEq (inst.dataValues field) (inst._previousDataValues field) with
    | true => exact absurd (strictEq_sound _ _ hs) hne
    | false => simp [isImmutable, hnew, hs]

/-- A concrete existing record whose field `x` changed from `"b"` to `"a"`. -/
def changedInst : ModelInstance where
  isNewRecord := false
  dataValues := fun f => if f = "x" then JSValue.str "a" else JSValue.undefined
  _previousDataValues := fun f => if f = "x" then JSValue.str "b" else JSValue.undefined

/-- Witness for C1: on the concrete changed record, `isImmutable` fails. -/
theorem isImmutable_existing_iff_eq_witness :
    isImmutable (JSValue.str "a") [] "x" changedInst = false :=
  (isImmutable_existing_iff_eq (JSValue.str "a") [] "x" changedInst rfl).2 (by decide)

/-- C2: for every record flagged as newly created, `isImmutable` returns
true, whatever the field and whatever the stored values. -/
theorem isImmutable_new_record (value : JSValue) (args : List JSValue)
    (field : String) (inst : ModelInstance) (hnew : inst.isNewRecord = true) :
    isImmutable value args field inst = true := by
  simp [isImmutable, hnew]

/-- A concrete new record whose field `x` changed from `"b"` to `"a"`. -/
def newInst : ModelInstance where
  isNewRecord := true
  dataValues := fun f => if f = "x" then JSValue.str "a" else JSValue.undefined
  _previousDataValues := fun f => if f = "x" then JSValue.str "b" else JSValue.undefined

/-- Witness for C2: on a concrete new record with a changed field,
`isImmutable` still succeeds. -/
theorem isImmutable_new_record_witness :
    isImmutable (JSValue.str "a") [] "x" newInst = true :=
  isImmutable_new_record (JSValue.str "a") [] "x" newInst rfl

/-- Modelled from the spec: `isIn(str, values)` of the external validator
library (not part of this repository), the set-membership test of a
string against a list of allowed values. -/
def isIn (str : String) (values : List String) : Bool :=
  values.contains str

/-- Source entry `notIn` of the `extensions` object:
`return !this.isIn(str, values)`, where `this.isIn` is the validator
library membership test installed on the same namespace. -/
def notIn (str : String) (values : List String) : Bool :=
  !(isIn str values)

/-- C3: `notIn(x, values)` is the logical negation of `isIn(x, values)`
for every string and every list of values. -/
theorem notIn_negates_isIn (x : String) (values : List String) :
    notIn x values = !(isIn x values)
      ∧ (notIn x values = true ↔ isIn x values = false) := by
  constructor
  · rfl
  · cases h : isIn x values <;> simp [notIn, h]

/-- The behavior of the JavaScript regular-expression engine that
`regex` calls through `String.prototype.match`: given the subject
string, the pattern and the modifier flags, it returns the match array
(`some` groups) on success and `null` (`none`) on failure.  The engine
itself is external to the repository, so it is kept abstract. -/
structure RegexEngine where
  matchF : String → String → String → Option (List String)

/-- JavaScript truthiness of a `String.prototype.match` result: `null`
is falsy, any match array (even one holding only empty strings) is
truthy. -/
def matchTruthy (r : Option (List String)) : Bool :=
  r.isSome

/-- Source entry `regex` of the `extensions` object: coerces `str` to
a string (already a string here), builds a RegExp from the pattern and
modifiers when needed, and returns `str.match(pattern)`. -/
def regex (eng : RegexEngine) (str pattern modifiers : String) :
    Option (List String) :=
  eng.matchF str pattern modifiers

/-- Source entry `notRegex` of the `extensions` object:
`return !this.regex(str, pattern, modifiers)` — JavaScript `!` applied
to the match result, hence true exactly when the match result is falsy. -/
def notRegex (eng : RegexEngine) (str pattern modifiers : String) : Bool :=
  !(matchTruthy (regex eng str pattern modifiers))

/-- C4: for every engine behavior and identical string/pattern/modifier
inputs, exactly one of `regex` and `notRegex` is truthy. -/
theorem regex_notRegex_exclusive (eng : RegexEngine)
    (str pattern modifiers : String) :
    (matchTruthy (regex eng str pattern modifiers) = true
        ∧ notRegex eng str pattern modifiers = false)
      ∨ (matchTruthy (regex eng str pattern modifiers) = false
        ∧ notRegex eng str pattern modifiers = true) := by
  cases h : eng.matchF str pattern modifiers with
  | none => right; simp [matchTruthy, regex, notRegex, h]
  | some groups => left; simp [matchTruthy, regex, notRegex, h]

/-- Substring search on character lists, the semantics of JavaScript
`String.prototype.includes`: does `sub` occur contiguously in `l`? -/
def listIncludes (sub : List Char) : List Char → Bool
  | [] => sub.isPrefixOf []
  | c :: t => sub.isPrefixOf (c :: t) || listIncludes sub t

/-- JavaScript `str.includes(elem)` for strings. -/
def strIncludes (str elem : String) : Bool :=
  listIncludes elem.data str.data

/-- The empty character list occurs in every character list. -/
theorem listIncludes_nil (l : List Char) : listIncludes [] l = true := by
  cases l <;> simp [listIncludes, List.isPrefixOf]

/-- The empty substring occurs in every string. -/
theorem strIncludes_empty (str : String) : strIncludes str "" = true :=
  listIncludes_nil str.data

/-- Source entry `contains` of the `extensions` object:
`return Boolean(elem) && str.includes(elem)`.  For a string argument,
`Boolean(elem)` is false exactly on the empty string. -/
def contains (str elem : String) : Bool :=
  !elem.isEmpty && strIncludes str elem

/-- Source entry `notContains` of the `extensions` object:
`return !this.contains(str, elem)`. -/
def notContains (str elem : String) : Bool :=
  !(contains str elem)

/-- C9: when `elem` is falsy - for strings, exactly when it is empty -
`contains` returns false even though every string includes the empty
substring, and consequently `notContains(str, "")` is true for every
`str`. -/
theorem contains_falsy_elem (str elem : String) (h : elem = "") :
    contains str elem = false
      ∧ strIncludes str elem = true
      ∧ notContains str elem = true := by
  subst h
  refine ⟨?_, strIncludes_empty str, ?_⟩
  · simp [contains, String.isEmpty]
  · simp [notContains, contains, String.isEmpty]

/-- Witness for C9 at `str = "abc"`, `elem = ""`. -/
theorem contains_falsy_elem_witness :
    contains "abc" "" = false
      ∧ strIncludes "abc" "" = true
      ∧ notContains "abc" "" = true :=
  contains_falsy_elem "abc" "" rfl

/-- Value of a list of decimal digit characters. -/
def digitsVal (ds : List Char) : Nat :=
  ds.foldl (fun a c => a * 10 + (c.toNat - 48)) 0

/-- Modelled from the spec: ECMAScript `Number.parseFloat` (an external
builtin, not part of this repository).  It parses the longest numeric
prefix - optional sign, integer digits, optional fraction, optional
exponent - and yields `NaN` (here `none`) when no digits are found.
Whitespace trimming and the `Infinity` literals are outside this model. -/
def parseJsFloat (s : String) : Option ℚ :=
  let cs := s.data
  let sign : ℚ := match cs with
    | '-' :: _ => -1
    | _ => 1
  let cs1 := match cs with
    | '-' :: r => r
    | '+' :: r => r
    | r => r
  let intPart := cs1.takeWhile Char.isDigit
  let cs2 := cs1.drop intPart.length
  let fracPart := match cs2 with
    | '.' :: r => r.takeWhile Char.isDigit
    | _ => []
  let cs3 := match cs2 with
    | '.' :: r => r.drop fracPart.length
    | r => r
  if intPart.isEmpty && fracPart.isEmpty then none
  else
    let mantissa : ℚ :=
      (digitsVal intPart : ℚ) + (digitsVal fracPart : ℚ) / (10 : ℚ) ^ fracPart.length
    let expVal : ℤ := match cs3 with
      | 'e' :: r | 'E' :: r =>
        let esign : ℤ := match r with
          | '-' :: _ => -1
          | _ => 1
        let r1 := match r with
          | '-' :: r2 => r2
          | '+' :: r2 => r2
          | r2 => r2
        let eds := r1.takeWhile Char.isDigit
        if eds.isEmpty then 0 else esign * (digitsVal eds : ℤ)
      | _ => 0
    some (sign * mantissa * (10 : ℚ) ^ expVal)

/-- Source entry `min` of the `extensions` object:
`const number = Number.parseFloat(str); return isNaN(number) || number >= val`. -/
def min (str : String) (val : ℚ) : Bool :=
  match parseJsFloat str with
  | none => true
  | some number => decide (number ≥ val)

/-- Source entry `max` of the `extensions` object:
`const number = Number.parseFloat(str); return isNaN(number) || number <= val`. -/
def max (str : String) (val : ℚ) : Bool :=
  match parseJsFloat str with
  | none => true
  | some number => decide (number ≤ val)

/-- C8: on any string that does not parse to a number, `min` and `max`
vacuously succeed for every bound. -/
theorem min_max_true_on_nonnumeric (str : String) (val : ℚ)
    (h : parseJsFloat str = none) :
    min str val = true ∧ max str val = true := by
  constructor <;> simp [min, max, h]

/-- Witness for C8 at `str = "abc"`, `val = 5`. -/
theorem min_max_true_on_nonnumeric_witness :
    min "abc" 5 = true ∧ max "abc" 5 = true :=
  min_max_true_on_nonnumeric "abc" 5 (by decide)

/-- A calendar date, the time value produced by parsing a date-only
string (midnight UTC of that day). -/
structure CalendarDate where
  year : Nat
  month : Nat
  day : Nat
deriving DecidableEq

/-- Gregorian leap-year test. -/
def isLeap (y : Nat) : Bool :=
  (y % 4 == 0 && y % 100 != 0) || y % 400 == 0

/-- Number of days in a month of a given year. -/
def daysInMonth (y m : Nat) : Nat :=
  if m == 2 then (if isLeap y then 29 else 28)
  else if m == 4 || m == 6 || m == 9 || m == 11 then 30
  else 31

/-- Modelled from the spec: ECMAScript `Date.parse` (an external builtin,
not part of this repository) restricted to the ISO 8601 date-only format
`YYYY-MM-DD`; every other string is unparseable (`NaN`, here `none`) in
this model. -/
def dateParse (s : String) : Option CalendarDate :=
  match s.data with
  | [y1, y2, y3, y4, '-', m1, m2, '-', d1, d2] =>
    if y1.isDigit && y2.isDigit && y3.isDigit && y4.isDigit
        && m1.isDigit && m2.isDigit && d1.isDigit && d2.isDigit then
      let y := digitsVal [y1, y2, y3, y4]
      let m := digitsVal [m1, m2]
      let d := digitsVal [d1, d2]
      if 1 ≤ m && m ≤ 12 && 1 ≤ d && d ≤ daysInMonth y m then
        some { year := y, month := m, day := d }
      else none
    else none
  | _ => none

/-- The two low decimal digit characters of a number. -/
def pad2 (n : Nat) : List Char :=
  [Char.ofNat (48 + n / 10 % 10), Char.ofNat (48 + n % 10)]

/-- The four low decimal digit characters of a number. -/
def pad4 (n : Nat) : List Char :=
  [Char.ofNat (48 + n / 1000 % 10), Char.ofNat (48 + n / 100 % 10),
    Char.ofNat (48 + n / 10 % 10), Char.ofNat (48 + n % 10)]

/-- Behavior of `Date.prototype.toISOString` on the time value of a parsed date-only
string: midnight UTC in the extended ISO format. -/
def toISOString (t : CalendarDate) : String :=
  String.mk (pad4 t.year ++ '-' :: pad2 t.month ++ '-' :: pad2 t.day
    ++ 'T' :: '0' :: '0' :: ':' :: '0' :: '0' :: ':' :: '0' :: '0' :: '.'
    :: '0' :: '0' :: '0' :: ['Z'])

/-- Modelled from the spec: the `moment(...).isValid()` check of the
external moment library on an ISO 8601 string - valid exactly when the
string has the extended shape `YYYY-MM-DDTHH:MM:SS.mmmZ` with a real
calendar date and in-range time fields. -/
def momentISOValid (s : String) : Bool :=
  match s.data with
  | [y1, y2, y3, y4, '-', m1, m2, '-', d1, d2, 'T', h1, h2, ':', mi1, mi2,
      ':', s1, s2, '.', f1, f2, f3, 'Z'] =>
    y1.isDigit && y2.isDigit && y3.isDigit && y4.isDigit
      && m1.isDigit && m2.isDigit && d1.isDigit && d2.isDigit
      && h1.isDigit && h2.isDigit && mi1.isDigit && mi2.isDigit
      && s1.isDigit && s2.isDigit && f1.isDigit && f2.isDigit && f3.isDigit
      && (let y := digitsVal [y1, y2, y3, y4]
          let m := digitsVal [m1, m2]
          let d := digitsVal [d1, d2]
          (1 ≤ m && m ≤ 12 && 1 ≤ d && d ≤ daysInMonth y m
            && digitsVal [h1, h2] ≤ 23 && digitsVal [mi1, mi2] ≤ 59
            && digitsVal [s1, s2] ≤ 59 : Bool))
  | _ => false

/-- The external runtime services `validator.isDate` relies on: the date
parser of the host (`Date.parse`) and the moment validity check. -/
structure DateEnv where
  parse : String → Option CalendarDate
  momentIsValid : String → Bool

/-- The concrete modelled environment: ECMAScript `Date.parse` on
date-only strings and moment ISO validation. -/
def jsDateEnv : DateEnv where
  parse := dateParse
  momentIsValid := momentISOValid

/-- The overridden `validator.isDate` from the source: returns false when
`Date.parse(dateString)` is `NaN`, otherwise converts the parsed time
value to ISO 8601 and asks moment whether it is valid. -/
def isDate (env : DateEnv) (dateString : String) : Bool :=
  match env.parse dateString with
  | none => false
  | some parsed => env.momentIsValid (toISOString parsed)

/-- C6: for every parsing environment, `isDate` returns false whenever
the input cannot be parsed to a valid instant (`Date.parse` yields
`NaN`). -/
theorem isDate_false_on_unparseable (env : DateEnv) (s : String)
    (h : env.parse s = none) : isDate env s = false := by
  simp [isDate, h]

/-- Witness for C6 at the modelled environment and `s = "not-a-date"`. -/
theorem isDate_false_on_unparseable_witness :
    isDate jsDateEnv "not-a-date" = false :=
  isDate_false_on_unparseable jsDateEnv "not-a-date" (by decide)

/-- C7: in the modelled environment, `isDate "2024-01-01"` succeeds and
`isDate "not-a-date"` fails. -/
theorem isDate_concrete_examples :
    isDate jsDateEnv "2024-01-01" = true
      ∧ isDate jsDateEnv "not-a-date" = false := by
  constructor <;> decide

/-- An entry of a validator namespace: either one of the functions the
external validator npm module exports (identified by its name), one of
the `extensions` functions of the source (identified by its key), or one
of the three functions the source assigns directly. -/
inductive VEntry where
  | base : String → VEntry
  | ext : String → VEntry
  | isImmutableV : VEntry
  | notNullV : VEntry
  | isDateOverrideV : VEntry
deriving DecidableEq

/-- A validator namespace object: an association of property names to
functions.  Property writes prepend and property reads take the first
binding, the usual mutable-record model. -/
abbrev VNamespace := List (String × VEntry)

/-- Property read: the first binding of the key, `none` for an absent
property. -/
def vlookup : VNamespace → String → Option VEntry
  | [], _ => none
  | (k, v) :: t, key => if k = key then some v else vlookup t key

/-- Property write. -/
def vset (ns : VNamespace) (key : String) (v : VEntry) : VNamespace :=
  (key, v) :: ns

/-- Modelled from the spec: a representative export surface of the
external validator npm module (version 7 or later) as `require` hands it
out.  Per the source comments, that version no longer ships `isDate`
(removed in validator 7.0.0) nor `isNull` (mapped to `isEmpty`
upstream), so neither name is present here. -/
def requireValidator : VNamespace :=
  ["isEmpty", "isLength", "isURL", "isIP", "isIn", "isEmail", "isUUID",
    "isAlpha", "isNumeric", "isInt", "isFloat"].map
    (fun n => (n, VEntry.base n))

/-- Lodash `_.cloneDeep`: the copy holds the same bindings as the original, but
later writes to the copy leave the original untouched (which the pure
state-passing below makes explicit: the original namespace value is
simply not rebound). -/
def cloneDeep (ns : VNamespace) : VNamespace := ns

/-- The keys of the `extensions` object of the source, in declaration
order (the order `_.forEach` visits them). -/
def extensionKeys : List String :=
  ["extend", "notEmpty", "len", "isUrl", "isIPv6", "isIPv4", "notIn",
    "regex", "notRegex", "isDecimal", "min", "max", "not", "contains",
    "notContains", "is"]

/-- The result of running the validator-extras module initialization:
`shared` is the namespace the validator npm module hands to every other
importer after this module ran, and `exported` is the `validator` object
this module itself exports. -/
structure InitResult where
  shared : VNamespace
  exported : VNamespace

/-- The module initialization of the source, as a function of the shared
namespace the validator require call returns: deep-clone it, assign
`isImmutable` and `notNull`, copy every `extensions` entry over,
alias `isNull` to the current `isEmpty`, and install the `isDate`
override.  Every write lands on the clone. -/
def initValidatorExtras (sharedBefore : VNamespace) : InitResult :=
  let v0 := cloneDeep sharedBefore
  let v1 := vset v0 "isImmutable" VEntry.isImmutableV
  let v2 := vset v1 "notNull" VEntry.notNullV
  let v3 := extensionKeys.foldl (fun acc k => vset acc k (VEntry.ext k)) v2
  let v4 := match vlookup v3 "isEmpty" with
    | some e => vset v3 "isNull" e
    | none => v3
  let v5 := vset v4 "isDate" VEntry.isDateOverrideV
  { shared := sharedBefore, exported := v5 }

/-- Claim C5 in the words of the spec: after module initialization the
shared validator namespace itself - the object other importers of the
validator module observe, not a private copy - carries the extension
predicates and the overridden `isDate` and `isImmutable`. -/
def sharedNamespaceCarriesExtensions : Prop :=
  vlookup (initValidatorExtras requireValidator).shared "notEmpty"
      = some (VEntry.ext "notEmpty")
    ∧ vlookup (initValidatorExtras requireValidator).shared "isDate"
      = some VEntry.isDateOverrideV
    ∧ vlookup (initValidatorExtras requireValidator).shared "isImmutable"
      = some VEntry.isImmutableV

/-- Counterexample to C5: the shared validator namespace carries none of
the extension predicates after initialization - the source deep-clones
the module object before patching, so every write lands on the private
copy. -/
theorem shared_namespace_not_patched : ¬ sharedNamespaceCarriesExtensions := by
  intro h
  exact absurd h.1 (by decide)

/-- C5 as amended: the shim deep-clones the validator module object at
load time and installs the extra predicates and the overridden `isDate`
and `isImmutable` on that private clone, which it exports; the shared
namespace other importers observe is left exactly as it was. -/
theorem init_patches_private_clone_only :
    (initValidatorExtras requireValidator).shared = requireValidator
      ∧ (extensionKeys.all (fun k =>
          vlookup (initValidatorExtras requireValidator).exported k
            == some (VEntry.ext k)) = true)
      ∧ vlookup (initValidatorExtras requireValidator).exported "isDate"
        = some VEntry.isDateOverrideV
      ∧ vlookup (initValidatorExtras requireValidator).exported "isImmutable"
        = some VEntry.isImmutableV
      ∧ vlookup (initValidatorExtras requireValidator).exported "notNull"
        = some VEntry.notNullV := by
  refine ⟨rfl, by decide, by decide, by decide, by decide⟩

/-- Modelled from the spec: `isEmpty` of the external validator library,
the string-length-zero test. -/
def isEmpty (str : String) : Bool :=
  str.length == 0

/-- Source assignment `validator.isNull = validator.isEmpty`: `isNull` is
an alias of the very same emptiness test. -/
def isNull : String → Bool := isEmpty

/-- Source function `validator.notNull`:
`return val !== null && val !== undefined`. -/
def notNull (val : JSValue) : Bool :=
  !(strictEq val JSValue.null) && !(strictEq val JSValue.undefined)

/-- C10: after initialization `isNull` is the very same function as
`isEmpty` - the exported namespace binds both names to one function and
the two agree on every input, so `isNull` tests string emptiness - while
null/undefined detection is `notNull`, true exactly on values that are
neither `null` nor `undefined`. -/
theorem isNull_is_isEmpty_and_notNull_detects_null :
    vlookup (initValidatorExtras requireValidator).exported "isNull"
        = vlookup (initValidatorExtras requireValidator).exported "isEmpty"
      ∧ (∀ x : String, isNull x = isEmpty x)
      ∧ (∀ v : JSValue, notNull v = true
          ↔ (v ≠ JSValue.null ∧ v ≠ JSValue.undefined)) := by
  refine ⟨by decide, fun x => rfl, fun v => ?_⟩
  cases v <;> simp [notNull, strictEq]

end SequelizeValidator
